import Mathlib

/-!
Shallow embedding of the virtio-iommu topology patchset:
the virt_iommu registry and endpoint resolver, the ACPI VIOT table
parser, and the virtio-iommu PCI config-region topology parser.

Device, fwnode and iommu_ops pointers are modelled as natural-number
identities; NULL pointers as `Option.none`.  Machine integers are `Nat`
with explicit `% 2^32` where the C computation can wrap.
-/

/- ### Error numbers (linux errno, as used by the C code) -/

def EINVAL : Int := 22
def ENODEV : Int := 19
def EOVERFLOW : Int := 75
def EPROBE_DEFER : Int := 517

/- ### Device-spec constants and structures (include/linux/virt_iommu.h) -/

def VIRT_IOMMU_DEV_TYPE_PCI : Nat := 1
def VIRT_IOMMU_DEV_TYPE_MMIO : Nat := 2

/-- `struct virt_iommu_dev_spec`: identifies an endpoint or an IOMMU
device.  The C union (PCI fields / MMIO base) is flattened; only the
fields selected by `type` are ever read by the code. -/
structure virt_iommu_dev_spec where
  type : Nat := 0
  segment : Nat := 0
  bdf_start : Nat := 0
  bdf_end : Nat := 0
  base : Nat := 0
  deriving Repr, DecidableEq

/-- `struct virt_iommu_spec`: specification of an IOMMU.  `dev`,
`fwnode` and `ops` are pointers in C, modelled as optional ids. -/
structure virt_iommu_spec where
  devid : virt_iommu_dev_spec := {}
  dev : Option Nat := none
  fwnode : Option Nat := none
  ops : Option Nat := none
  deriving Repr, DecidableEq

/-- `struct virt_iommu_endpoint_spec`.  The `viommu` pointer is modelled
as the allocation id of the IOMMU spec it references. -/
structure virt_iommu_endpoint_spec where
  devid : virt_iommu_dev_spec := {}
  endpoint_id : Nat := 0
  viommu : Nat := 0
  deriving Repr, DecidableEq

/-- The registry's three lists (`viommus`, `pci_endpoints`,
`mmio_endpoints` in virt_iommu.c).  IOMMU specs are stored with their
allocation id, since `virt_set_iommu_ops` mutates them in place and
endpoint specs refer to them by pointer. -/
structure RegistryState where
  viommus : List (Nat × virt_iommu_spec) := []
  pci_endpoints : List virt_iommu_endpoint_spec := []
  mmio_endpoints : List virt_iommu_endpoint_spec := []
  deriving Repr, DecidableEq

/-- `virt_iommu_add_iommu_spec`: prepend to the viommus list
(`list_add` inserts at the head). -/
def virt_iommu_add_iommu_spec (sp : Nat × virt_iommu_spec)
    (st : RegistryState) : RegistryState :=
  { st with viommus := sp :: st.viommus }

/-- `virt_iommu_add_endpoint_spec`: prepend to the MMIO or PCI endpoint
list according to the spec's device type. -/
def virt_iommu_add_endpoint_spec (ep : virt_iommu_endpoint_spec)
    (st : RegistryState) : RegistryState :=
  if ep.devid.type = VIRT_IOMMU_DEV_TYPE_MMIO then
    { st with mmio_endpoints := ep :: st.mmio_endpoints }
  else
    { st with pci_endpoints := ep :: st.pci_endpoints }

/- ### Live devices, as seen by the resolver -/

/-- What the resolver can observe of a live `struct device`: a PCI
device (segment and BDF), a platform device (first MEM resource start,
if any), or another bus. -/
inductive DeviceKind where
  | pciDev (segment : Nat) (bdf : Nat)
  | platformDev (mem : Option Nat)
  | otherDev
  deriving Repr, DecidableEq

/-- A live device: pointer identity `id`, bus-specific data `kind`,
its fwnode, and `dev_iommu_fwspec_get(dev)` (outer `none` = no fwspec,
inner option = `fwspec->ops`). -/
structure device where
  id : Nat
  kind : DeviceKind := .otherDev
  fwnode : Nat := 0
  fwspec : Option (Option Nat) := none
  deriving Repr, DecidableEq

/-- `viommu_device_match` (virt_iommu.c): PCI specs match PCI devices by
segment and inclusive BDF range; MMIO specs match platform devices by
exact first-MEM-resource base equality. -/
def viommu_device_match (dev : device) (spec : virt_iommu_dev_spec) : Bool :=
  match dev.kind with
  | .pciDev seg bdf =>
      spec.type = VIRT_IOMMU_DEV_TYPE_PCI &&
        (seg = spec.segment && (spec.bdf_start ≤ bdf && bdf ≤ spec.bdf_end))
  | .platformDev mem =>
      spec.type = VIRT_IOMMU_DEV_TYPE_MMIO &&
        (match mem with
         | none => false
         | some m => m = spec.base)
  | .otherDev => false

/- ### The resolver: virt_iommu_setup -/

/-- Result of `virt_iommu_setup`.  `noMatch` is the NULL return,
`probeDefer` is `ERR_PTR(-EPROBE_DEFER)`, `found ops epid` is the
successful return of `viommu_spec->ops` after registering `epid` via
`iommu_fwspec_add_ids`.  `iommu_fwspec_init` is an external collaborator
and is modelled as succeeding. -/
inductive SetupResult where
  | noMatch
  | probeDefer
  | found (ops : Nat) (epid : Nat)
  deriving Repr, DecidableEq

/-- The endpoint-list walk of `virt_iommu_setup`: first endpoint whose
devid matches the device, paired with the computed endpoint id
(u32 arithmetic, hence `% 2^32`; for MMIO the id is used unchanged). -/
def viommu_find_endpoint (dev : device) :
    List virt_iommu_endpoint_spec → Option (Nat × virt_iommu_endpoint_spec)
  | [] => none
  | ep :: rest =>
      if viommu_device_match dev ep.devid then
        match dev.kind with
        | .pciDev _ bdf =>
            some ((bdf - ep.devid.bdf_start + ep.endpoint_id) % 2 ^ 32, ep)
        | _ => some (ep.endpoint_id % 2 ^ 32, ep)
      else viommu_find_endpoint dev rest

/-- Look an IOMMU spec up by its allocation id (pointer dereference). -/
def lookupViommu (st : RegistryState) (vid : Nat) : Option virt_iommu_spec :=
  (st.viommus.find? (fun p => p.1 = vid)).map Prod.snd

/-- `virt_iommu_setup` (virt_iommu.c): return NULL if the device already
has fwspec ops; walk the PCI or MMIO endpoint list for the first match,
computing the endpoint id; return NULL on no match or when the device is
the matched IOMMU's own transport; defer when the matched IOMMU has no
ops yet; otherwise initialise the fwspec and return the ops. -/
def virt_iommu_setup (st : RegistryState) (dev : device) : SetupResult :=
  match dev.fwspec with
  | some (some _) => .noMatch
  | _ =>
    let matched :=
      match dev.kind with
      | .pciDev _ _ => viommu_find_endpoint dev st.pci_endpoints
      | .platformDev _ => viommu_find_endpoint dev st.mmio_endpoints
      | .otherDev => none
    match matched with
    | none => .noMatch
    | some (epid, ep) =>
      match lookupViommu st ep.viommu with
      | none => .noMatch
      | some vs =>
        if viommu_device_match dev vs.devid ∨ vs.dev = some dev.id then
          .noMatch
        else
          match vs.ops with
          | none => .probeDefer
          | some ops => .found ops epid

/- ### virt_set_iommu_ops -/

/-- The list walk of `virt_set_iommu_ops`: bind `dev` to the first spec
that matches it by selector and has no device yet, then set `ops` and
`fwnode` on the spec bound to `dev` and stop. -/
def set_iommu_ops_walk (dev : device) (ops : Option Nat) :
    List (Nat × virt_iommu_spec) → List (Nat × virt_iommu_spec)
  | [] => []
  | (vid, vs) :: rest =>
      let vs' :=
        if vs.dev = none ∧ viommu_device_match dev vs.devid then
          { vs with dev := some dev.id }
        else vs
      if vs'.dev = some dev.id then
        (vid, { vs' with ops := ops,
                         fwnode := if ops.isSome then some dev.fwnode
                                   else none }) :: rest
      else (vid, vs') :: set_iommu_ops_walk dev ops rest

/-- `virt_set_iommu_ops` (virt_iommu.c). -/
def virt_set_iommu_ops (st : RegistryState) (dev : device)
    (ops : Option Nat) : RegistryState :=
  { st with viommus := set_iommu_ops_walk dev ops st.viommus }

/- ### The ACPI VIOT table (acpi_viot.c) -/

/-- Modelled from the spec: the VIOT record type constants from the ACPI
header, which is not part of the source tree.  Only their distinctness
matters to the code. -/
def ACPI_VIOT_NODE_PCI_RANGE : Nat := 1
def ACPI_VIOT_NODE_MMIO : Nat := 2
def ACPI_VIOT_NODE_VIRTIO_IOMMU_PCI : Nat := 3
def ACPI_VIOT_NODE_VIRTIO_IOMMU_MMIO : Nat := 4

/-- Modelled from the spec: `sizeof(struct acpi_viot_node)`, the fixed
record sub-header `{type:u8, reserved:u8, length:u16}`. -/
def sizeof_acpi_viot_node : Nat := 4

/-- Modelled from the spec: `sizeof(struct acpi_viot_pci_range)`
(sub-header + segment:u16 + bdf_start:u16 + bdf_end:u16 +
output_node:u16 + reserved:u16 + endpoint_start:u32). -/
def sizeof_acpi_viot_pci_range : Nat := 18

/-- Modelled from the spec: `sizeof(struct acpi_viot_mmio)`
(sub-header + endpoint:u32 + reserved:u32 + base_address:u64). -/
def sizeof_acpi_viot_mmio : Nat := 20

/-- Modelled from the spec: `sizeof(struct acpi_viot_virtio_iommu_pci)`
(sub-header + segment:u16 + bdf:u16). -/
def sizeof_acpi_viot_virtio_iommu_pci : Nat := 8

/-- Modelled from the spec: `sizeof(struct acpi_viot_virtio_iommu_mmio)`
(sub-header + reserved:u32 + base_address:u64). -/
def sizeof_acpi_viot_virtio_iommu_mmio : Nat := 16

/-- Modelled from the spec: `sizeof(struct acpi_table_viot)`, the table
header `{signature, length, node_offset:u32, node_count:u32, reserved}`
including the standard 36-byte ACPI header. -/
def sizeof_acpi_table_viot : Nat := 48

/-- The bytes of the table at a given offset, viewed through each of the
record structures the parser casts to (the C code reinterprets the same
`acpi_viot_node *` through a union of payload structs). -/
structure acpi_viot_node where
  type : Nat := 0
  reserved : Nat := 0
  length : Nat := 0
  pr_segment : Nat := 0
  pr_bdf_start : Nat := 0
  pr_bdf_end : Nat := 0
  pr_output_node : Nat := 0
  pr_endpoint_start : Nat := 0
  mm_endpoint : Nat := 0
  mm_base_address : Nat := 0
  mm_output_node : Nat := 0
  vp_segment : Nat := 0
  vp_bdf : Nat := 0
  vm_base_address : Nat := 0
  deriving Repr, DecidableEq

/-- `struct acpi_table_viot`: header fields plus the mapped record
bytes, indexed by byte offset from the start of the table. -/
structure acpi_table_viot where
  header_length : Nat
  node_offset : Nat
  node_count : Nat
  nodes : Nat → acpi_viot_node

/-- `viot_check_bounds` (acpi_viot.c): `-EOVERFLOW` if the node pointer
is below `viot + node_offset` or at/after `viot + header.length`;
`-EINVAL` if the declared length is smaller than the sub-header. -/
def viot_check_bounds (viot : acpi_table_viot) (off : Nat) : Int :=
  if off < viot.node_offset ∨ viot.header_length ≤ off then -EOVERFLOW
  else if (viot.nodes off).length < sizeof_acpi_viot_node then -EINVAL
  else 0

/-- Parser state: the `iommus` dedup list (offset, allocation id of the
spec; `list_add` prepends), the shared registry, and the allocator
counter supplying fresh spec identities. -/
structure ViotState where
  iommus : List (Nat × Nat) := []
  reg : RegistryState := {}
  next_id : Nat := 0
  deriving Repr, DecidableEq

/-- `viot_get_iommu` (acpi_viot.c): return the already-visited IOMMU
spec for `off` if present; otherwise bounds-check the node, build a spec
from its VIRTIO_IOMMU_PCI or VIRTIO_IOMMU_MMIO payload (NULL on any
other type or a too-short payload), record it in the dedup list and
publish it to the registry.  Returns the spec pointer (allocation id) or
NULL. -/
def viot_get_iommu (viot : acpi_table_viot) (off : Nat) (st : ViotState) :
    Option Nat × ViotState :=
  match st.iommus.find? (fun p => p.1 = off) with
  | some p => (some p.2, st)
  | none =>
    if viot_check_bounds viot off ≠ 0 then (none, st)
    else
      let node := viot.nodes off
      let publish (spec : virt_iommu_spec) : Option Nat × ViotState :=
        (some st.next_id,
         { iommus := (off, st.next_id) :: st.iommus,
           reg := virt_iommu_add_iommu_spec (st.next_id, spec) st.reg,
           next_id := st.next_id + 1 })
      if node.type = ACPI_VIOT_NODE_VIRTIO_IOMMU_PCI then
        if node.length < sizeof_acpi_viot_virtio_iommu_pci then (none, st)
        else
          publish { devid := { type := VIRT_IOMMU_DEV_TYPE_PCI,
                               segment := node.vp_segment,
                               bdf_start := node.vp_bdf,
                               bdf_end := node.vp_bdf } }
      else if node.type = ACPI_VIOT_NODE_VIRTIO_IOMMU_MMIO then
        if node.length < sizeof_acpi_viot_virtio_iommu_mmio then (none, st)
        else
          publish { devid := { type := VIRT_IOMMU_DEV_TYPE_MMIO,
                               base := node.vm_base_address } }
      else (none, st)

/-- The endpoint spec built from a PCI_RANGE record, pointing at the
IOMMU spec with allocation id `vid`. -/
def viot_pci_endpoint (node : acpi_viot_node) (vid : Nat) :
    virt_iommu_endpoint_spec :=
  { devid := { type := VIRT_IOMMU_DEV_TYPE_PCI,
               segment := node.pr_segment,
               bdf_start := node.pr_bdf_start,
               bdf_end := node.pr_bdf_end },
    endpoint_id := node.pr_endpoint_start,
    viommu := vid }

/-- The endpoint spec built from an MMIO record. -/
def viot_mmio_endpoint (node : acpi_viot_node) (vid : Nat) :
    virt_iommu_endpoint_spec :=
  { devid := { type := VIRT_IOMMU_DEV_TYPE_MMIO,
               base := node.mm_base_address },
    endpoint_id := node.mm_endpoint,
    viommu := vid }

/-- `viot_parse_node` (acpi_viot.c): bounds-check, then dispatch on the
record type; PCI_RANGE and MMIO records build an endpoint spec, resolve
their IOMMU through `viot_get_iommu` (failure is `-ENODEV`), and publish
the endpoint; any other type is skipped with return 0. -/
def viot_parse_node (viot : acpi_table_viot) (off : Nat) (st : ViotState) :
    Int × ViotState :=
  if viot_check_bounds viot off ≠ 0 then (-EINVAL, st)
  else if (viot.nodes off).type = ACPI_VIOT_NODE_PCI_RANGE then
    if (viot.nodes off).length < sizeof_acpi_viot_pci_range then (-EINVAL, st)
    else
      match viot_get_iommu viot (viot.nodes off).pr_output_node st with
      | (none, st') => (-ENODEV, st')
      | (some vid, st') =>
        (0, { st' with
              reg := virt_iommu_add_endpoint_spec
                  (viot_pci_endpoint (viot.nodes off) vid) st'.reg })
  else if (viot.nodes off).type = ACPI_VIOT_NODE_MMIO then
    if (viot.nodes off).length < sizeof_acpi_viot_mmio then (-EINVAL, st)
    else
      match viot_get_iommu viot (viot.nodes off).mm_output_node st with
      | (none, st') => (-ENODEV, st')
      | (some vid, st') =>
        (0, { st' with
              reg := virt_iommu_add_endpoint_spec
                  (viot_mmio_endpoint (viot.nodes off) vid) st'.reg })
  else (0, st)

/-- The record loop of `viot_parse_nodes`: iterate over at most `n`
records starting at `off`, stopping at the first record whose parse
fails and advancing the cursor by the record's declared length
otherwise. -/
def viot_walk (viot : acpi_table_viot) :
    Nat → Nat → ViotState → ViotState
  | 0, _, st => st
  | n + 1, off, st =>
      if (viot_parse_node viot off st).1 ≠ 0 then
        (viot_parse_node viot off st).2
      else
        viot_walk viot n (off + (viot.nodes off).length)
          (viot_parse_node viot off st).2

/-- `viot_parse_nodes` (acpi_viot.c): reject a node array starting
inside the table header, then walk `node_count` records from
`node_offset`. -/
def viot_parse_nodes (viot : acpi_table_viot) (st : ViotState) : ViotState :=
  if viot.node_offset < sizeof_acpi_table_viot then st
  else viot_walk viot viot.node_count viot.node_offset st

/-- Number of loop iterations `viot_walk` actually performs (an
iteration is one `viot_parse_node` call). -/
def viot_walk_steps (viot : acpi_table_viot) :
    Nat → Nat → ViotState → Nat
  | 0, _, _ => 0
  | n + 1, off, st =>
      if (viot_parse_node viot off st).1 ≠ 0 then 1
      else
        1 + viot_walk_steps viot n (off + (viot.nodes off).length)
          (viot_parse_node viot off st).2

/- ### The virtio-iommu PCI config-region parser (virtio-iommu-topology.c) -/

/-- Modelled from the spec: the topology item type constants from the
virtio-iommu uapi header, which is not part of the source tree. -/
def VIRTIO_IOMMU_TOPO_PCI_RANGE : Nat := 1
def VIRTIO_IOMMU_TOPO_MMIO : Nat := 2

/-- `sizeof(struct viommu_topo_header)`: `{type:u8, reserved:u8,
length:u16}` (virtio-iommu-topology.c). -/
def sizeof_viommu_topo_header : Nat := 4

/-- Modelled from the spec: `sizeof(struct virtio_iommu_topo_pci_range)`
(sub-header + endpoint_start:u32 + segment:u16 + bdf_start:u16 +
bdf_end:u16 + padding:u16). -/
def sizeof_virtio_iommu_topo_pci_range : Nat := 16

/-- Modelled from the spec: `sizeof(struct virtio_iommu_topo_mmio)`
(sub-header + address:u64 + endpoint:u32). -/
def sizeof_virtio_iommu_topo_mmio : Nat := 16

/-- The bytes of the device config region at a given offset, viewed
through each of the structures `viommu_parse_node` casts to. -/
structure viommu_topo_item where
  type : Nat := 0
  reserved : Nat := 0
  length : Nat := 0
  pci_segment : Nat := 0
  pci_bdf_start : Nat := 0
  pci_bdf_end : Nat := 0
  pci_endpoint_start : Nat := 0
  mmio_address : Nat := 0
  mmio_endpoint : Nat := 0
  deriving Repr, DecidableEq

/-- The device configuration region as read through the windowed I/O
accessors: the topology descriptor `{offset, num_items}` and the item
bytes indexed by byte offset from the start of the config structure. -/
structure virtio_iommu_config where
  topo_offset : Nat
  topo_num_items : Nat
  items : Nat → viommu_topo_item

/-- Return of `viommu_parse_node` in virtio-iommu-topology.c: an
endpoint spec (without its `viommu` pointer, filled in by the caller),
NULL, or `ERR_PTR(e)`.  The type has all three constructors because the
caller distinguishes all three cases. -/
inductive ParseNodeResult where
  | ok (devid : virt_iommu_dev_spec) (endpoint_id : Nat)
  | null
  | err (e : Int)
  deriving Repr, DecidableEq

/-- `viommu_parse_node` (virtio-iommu-topology.c): dispatch on the item
type byte; PCI_RANGE and MMIO items with a long-enough declared length
yield an endpoint spec; a too-short payload or any other type frees the
spec and returns `ERR_PTR(-EINVAL)` (`ret` is initialised to `-EINVAL`
and never changed before `err_free`). -/
def viommu_parse_node (cfg : virtio_iommu_config) (off : Nat) (len : Nat) :
    ParseNodeResult :=
  let item := cfg.items off
  if item.type = VIRTIO_IOMMU_TOPO_PCI_RANGE then
    if len < sizeof_virtio_iommu_topo_pci_range then .err (-EINVAL)
    else
      .ok { type := VIRT_IOMMU_DEV_TYPE_PCI,
            segment := item.pci_segment,
            bdf_start := item.pci_bdf_start,
            bdf_end := item.pci_bdf_end } item.pci_endpoint_start
  else if item.type = VIRTIO_IOMMU_TOPO_MMIO then
    if len < sizeof_virtio_iommu_topo_mmio then .err (-EINVAL)
    else
      .ok { type := VIRT_IOMMU_DEV_TYPE_MMIO,
            base := item.mmio_address } item.mmio_endpoint
  else .err (-EINVAL)

/-- The item loop of `viommu_parse_topology`: accumulate endpoint specs
(prepending, as `list_add` does) on a local list, failing with
`-EOVERFLOW` when an item's sub-header or declared length would exceed
`max_len`, propagating `viommu_parse_node` errors, and skipping items
for which it returns NULL.  On success, return the accumulated list. -/
def viommu_topo_walk (cfg : virtio_iommu_config) (max_len : Nat)
    (vid : Nat) :
    Nat → Nat → List virt_iommu_endpoint_spec →
    Int × List virt_iommu_endpoint_spec
  | 0, _, acc => (0, acc)
  | n + 1, off, acc =>
      if max_len < off + sizeof_viommu_topo_header then (-EOVERFLOW, acc)
      else if max_len < off + (cfg.items off).length then (-EOVERFLOW, acc)
      else
        match viommu_parse_node cfg off (cfg.items off).length with
        | .null =>
            viommu_topo_walk cfg max_len vid n
              (off + (cfg.items off).length) acc
        | .err e => (e, acc)
        | .ok devid epid =>
            viommu_topo_walk cfg max_len vid n
              (off + (cfg.items off).length)
              ({ devid := devid, endpoint_id := epid, viommu := vid } :: acc)

/-- Publish a list of endpoint specs in order (`list_for_each_entry_safe`
over the local list, each moved to the registry lists). -/
def publish_endpoints (eps : List virt_iommu_endpoint_spec)
    (st : RegistryState) : RegistryState :=
  eps.foldl (fun s ep => virt_iommu_add_endpoint_spec ep s) st

/-- `viommu_parse_topology` (virtio-iommu-topology.c): read the topology
descriptor; succeed trivially when offset or item count is zero;
otherwise allocate one IOMMU spec (only its `dev` field set) with a
fresh identity, walk the items buffering endpoint specs locally, and on
success publish every endpoint spec and then the IOMMU spec; on any
failure free everything and return the error with the registry
untouched.  Returns the `int` result, the registry, and the allocator
counter. -/
def viommu_parse_topology (dev : Nat) (cfg : virtio_iommu_config)
    (max_len : Nat) (st : RegistryState) (next_id : Nat) :
    Int × RegistryState × Nat :=
  if cfg.topo_offset = 0 ∨ cfg.topo_num_items = 0 then (0, st, next_id)
  else if (viommu_topo_walk cfg max_len next_id cfg.topo_num_items
             cfg.topo_offset []).1 ≠ 0 then
    ((viommu_topo_walk cfg max_len next_id cfg.topo_num_items
        cfg.topo_offset []).1, st, next_id)
  else
    (0,
     virt_iommu_add_iommu_spec (next_id, { devid := {}, dev := some dev })
       (publish_endpoints
         (viommu_topo_walk cfg max_len next_id cfg.topo_num_items
            cfg.topo_offset []).2 st),
     next_id + 1)

/- ### Claims about the resolver -/

/-- C10: for every device whose firmware spec already has IOMMU ops
installed, `virt_iommu_setup` returns "no match" (NULL) immediately,
for every possible registry state — so an already-configured device can
never receive a defer result or a second configuration. -/
theorem virt_iommu_setup_already_translated (st : RegistryState)
    (dev : device) (o : Nat) (h : dev.fwspec = some (some o)) :
    virt_iommu_setup st dev = .noMatch := by
  simp [virt_iommu_setup, h]

theorem virt_iommu_setup_already_translated_witness :
    virt_iommu_setup
      { viommus := [(0, { devid := {}, dev := some 9, ops := some 3 })],
        pci_endpoints :=
          [{ devid := { type := VIRT_IOMMU_DEV_TYPE_PCI, segment := 0,
                        bdf_start := 0, bdf_end := 255 },
             endpoint_id := 0, viommu := 0 }],
        mmio_endpoints := [] }
      { id := 5, kind := .pciDev 0 7, fwnode := 0,
        fwspec := some (some 11) } = .noMatch :=
  virt_iommu_setup_already_translated _ _ 11 rfl

/-- The scan result for a PCI device: the computed id is the u32 value
`device_bdf - bdf_start + endpoint_id` and the returned endpoint does
match the device. -/
theorem viommu_find_endpoint_pci (l : List virt_iommu_endpoint_spec)
    (dev : device) (seg bdf e : Nat) (ep : virt_iommu_endpoint_spec)
    (hk : dev.kind = .pciDev seg bdf)
    (hfind : viommu_find_endpoint dev l = some (e, ep)) :
    e = (bdf - ep.devid.bdf_start + ep.endpoint_id) % 2 ^ 32 ∧
      viommu_device_match dev ep.devid = true := by
  induction l with
  | nil => simp [viommu_find_endpoint] at hfind
  | cons hd tl ih =>
    rw [viommu_find_endpoint] at hfind
    by_cases hm : viommu_device_match dev hd.devid
    · rw [if_pos hm, hk] at hfind
      obtain ⟨he, hep⟩ := Prod.mk.injEq .. ▸ Option.some.injEq .. ▸ hfind
      subst hep
      exact ⟨he.symm, hm⟩
    · rw [if_neg hm] at hfind
      exact ih hfind

/-- The scan result for a platform device: the id is the endpoint's
`endpoint_id` (reduced to u32) and the returned endpoint matches. -/
theorem viommu_find_endpoint_mmio (l : List virt_iommu_endpoint_spec)
    (dev : device) (mem : Option Nat) (e : Nat)
    (ep : virt_iommu_endpoint_spec)
    (hk : dev.kind = .platformDev mem)
    (hfind : viommu_find_endpoint dev l = some (e, ep)) :
    e = ep.endpoint_id % 2 ^ 32 ∧
      viommu_device_match dev ep.devid = true := by
  induction l with
  | nil => simp [viommu_find_endpoint] at hfind
  | cons hd tl ih =>
    rw [viommu_find_endpoint] at hfind
    by_cases hm : viommu_device_match dev hd.devid
    · rw [if_pos hm, hk] at hfind
      obtain ⟨he, hep⟩ := Prod.mk.injEq .. ▸ Option.some.injEq .. ▸ hfind
      subst hep
      exact ⟨he.symm, hm⟩
    · rw [if_neg hm] at hfind
      exact ih hfind

/-- C4: for a device matched (first match in the scan) by a PCI endpoint
spec, the resolver computes the endpoint id as
`endpoint_id + (device_bdf - bdf_start)`; for a platform device matched
by an MMIO endpoint spec, the endpoint id is `endpoint_id` unchanged.
(The code computes in u32; the hypothesis that the sum is representable
removes the wraparound.) -/
theorem virt_iommu_setup_epid_affine :
    (∀ (st : RegistryState) (dev : device) (seg bdf e : Nat)
       (ep : virt_iommu_endpoint_spec),
       dev.kind = .pciDev seg bdf →
       viommu_find_endpoint dev st.pci_endpoints = some (e, ep) →
       ep.endpoint_id + (bdf - ep.devid.bdf_start) < 2 ^ 32 →
       e = ep.endpoint_id + (bdf - ep.devid.bdf_start)) ∧
    (∀ (st : RegistryState) (dev : device) (mem : Option Nat) (e : Nat)
       (ep : virt_iommu_endpoint_spec),
       dev.kind = .platformDev mem →
       viommu_find_endpoint dev st.mmio_endpoints = some (e, ep) →
       ep.endpoint_id < 2 ^ 32 →
       e = ep.endpoint_id) ∧
    (∀ (st : RegistryState) (dev : device) (e : Nat)
       (ep : virt_iommu_endpoint_spec) (vs : virt_iommu_spec) (ops : Nat),
       (dev.fwspec = none ∨ dev.fwspec = some none) →
       (match dev.kind with
        | .pciDev _ _ => viommu_find_endpoint dev st.pci_endpoints
        | .platformDev _ => viommu_find_endpoint dev st.mmio_endpoints
        | .otherDev => none) = some (e, ep) →
       lookupViommu st ep.viommu = some vs →
       viommu_device_match dev vs.devid = false →
       vs.dev ≠ some dev.id →
       vs.ops = some ops →
       virt_iommu_setup st dev = .found ops e) := by
  refine ⟨?_, ?_, ?_⟩
  · intro st dev seg bdf e ep hk hfind hlt
    obtain ⟨he, -⟩ := viommu_find_endpoint_pci _ dev seg bdf e ep hk hfind
    rw [he, Nat.mod_eq_of_lt (by omega)]
    omega
  · intro st dev mem e ep hk hfind hlt
    obtain ⟨he, -⟩ := viommu_find_endpoint_mmio _ dev mem e ep hk hfind
    rw [he, Nat.mod_eq_of_lt hlt]
  · intro st dev e ep vs ops hfw hfind hlook hsm hsd hops
    unfold virt_iommu_setup
    rcases hfw with h | h <;> rw [h] <;>
      simp only [hfind, hlook, hsm, hops, Bool.false_eq_true, false_or] <;>
      rw [if_neg hsd]

theorem virt_iommu_setup_epid_affine_witness :
    virt_iommu_setup
      { viommus := [(0, { devid := { type := VIRT_IOMMU_DEV_TYPE_PCI,
                                     segment := 0, bdf_start := 40,
                                     bdf_end := 40 },
                          dev := some 9, ops := some 3 })],
        pci_endpoints := [{ devid := { type := VIRT_IOMMU_DEV_TYPE_PCI,
                                       segment := 0, bdf_start := 0x10,
                                       bdf_end := 0x1F },
                            endpoint_id := 100, viommu := 0 }],
        mmio_endpoints := [] }
      { id := 5, kind := .pciDev 0 0x15, fwnode := 0, fwspec := none } =
      .found 3 (100 + (0x15 - 0x10)) := by
  have h := virt_iommu_setup_epid_affine.2.2
    { viommus := [(0, { devid := { type := VIRT_IOMMU_DEV_TYPE_PCI,
                                   segment := 0, bdf_start := 40,
                                   bdf_end := 40 },
                        dev := some 9, ops := some 3 })],
      pci_endpoints := [{ devid := { type := VIRT_IOMMU_DEV_TYPE_PCI,
                                     segment := 0, bdf_start := 0x10,
                                     bdf_end := 0x1F },
                          endpoint_id := 100, viommu := 0 }],
      mmio_endpoints := [] }
    { id := 5, kind := .pciDev 0 0x15, fwnode := 0, fwspec := none }
    105
    { devid := { type := VIRT_IOMMU_DEV_TYPE_PCI, segment := 0,
                 bdf_start := 0x10, bdf_end := 0x1F },
      endpoint_id := 100, viommu := 0 }
    { devid := { type := VIRT_IOMMU_DEV_TYPE_PCI, segment := 0,
                 bdf_start := 40, bdf_end := 40 },
      dev := some 9, ops := some 3 }
    3 (Or.inl rfl) (by decide) (by decide) (by decide) (by decide) rfl
  exact h

/- ### C2: self-exclusion in the resolver -/

/-- Registry with two IOMMUs for probing the self-exclusion check:
IOMMU 0's transport is device 10 (PCI 0:8), IOMMU 1's transport is
device 20 (PCI 1:1); the sole registered endpoint range 0:[0,15] is
managed by IOMMU 1. -/
def selfExclReg : RegistryState :=
  { viommus :=
      [(0, { devid := { type := VIRT_IOMMU_DEV_TYPE_PCI, segment := 0,
                        bdf_start := 8, bdf_end := 8 },
             dev := some 10, ops := some 111 }),
       (1, { devid := { type := VIRT_IOMMU_DEV_TYPE_PCI, segment := 1,
                        bdf_start := 1, bdf_end := 1 },
             dev := some 20, ops := some 222 })],
    pci_endpoints :=
      [{ devid := { type := VIRT_IOMMU_DEV_TYPE_PCI, segment := 0,
                    bdf_start := 0, bdf_end := 15 },
         endpoint_id := 0, viommu := 1 }],
    mmio_endpoints := [] }

/-- IOMMU 0's own transport device: PCI segment 0, BDF 8, untranslated. -/
def selfExclDev : device :=
  { id := 10, kind := .pciDev 0 8, fwnode := 0, fwspec := none }

/-- C2 counterexample: `selfExclDev` is IOMMU 0's own transport device
(pointer-bound and selector-matched) and its BDF falls inside the
registered endpoint range, yet the resolver does not return "no match":
the matched range is managed by IOMMU 1, and the self-exclusion check
runs only after the range match and only against the matched IOMMU, so
resolution succeeds with IOMMU 1's ops. -/
theorem virt_iommu_setup_self_exclusion_cx :
    ((0, { devid := { type := VIRT_IOMMU_DEV_TYPE_PCI, segment := 0,
                      bdf_start := 8, bdf_end := 8 },
           dev := some 10, ops := some 111 }) ∈ selfExclReg.viommus ∧
     (some selfExclDev.id : Option Nat) = some 10 ∧
     viommu_device_match selfExclDev
       { type := VIRT_IOMMU_DEV_TYPE_PCI, segment := 0,
         bdf_start := 8, bdf_end := 8 } = true) ∧
    (∃ ep ∈ selfExclReg.pci_endpoints,
       viommu_device_match selfExclDev ep.devid = true) ∧
    virt_iommu_setup selfExclReg selfExclDev = .found 222 8 := by
  decide

/-- C2 amended: the self-exclusion runs after the endpoint-range match
and only against the matched endpoint's own IOMMU: whenever the scan
matches an endpoint whose IOMMU's selector matches the device or whose
IOMMU's bound transport is the device itself, the resolver returns "no
match", regardless of the IOMMU's ops. -/
theorem virt_iommu_setup_self_exclusion (st : RegistryState) (dev : device)
    (e : Nat) (ep : virt_iommu_endpoint_spec) (vs : virt_iommu_spec)
    (hfw : dev.fwspec = none ∨ dev.fwspec = some none)
    (hfind : (match dev.kind with
              | .pciDev _ _ => viommu_find_endpoint dev st.pci_endpoints
              | .platformDev _ => viommu_find_endpoint dev st.mmio_endpoints
              | .otherDev => none) = some (e, ep))
    (hlook : lookupViommu st ep.viommu = some vs)
    (hself : viommu_device_match dev vs.devid = true ∨ vs.dev = some dev.id) :
    virt_iommu_setup st dev = .noMatch := by
  unfold virt_iommu_setup
  rcases hfw with h | h <;> rw [h] <;> simp only [hfind, hlook] <;>
    exact if_pos hself

theorem virt_iommu_setup_self_exclusion_witness :
    virt_iommu_setup
      { viommus := [(1, { devid := { type := VIRT_IOMMU_DEV_TYPE_PCI,
                                     segment := 1, bdf_start := 1,
                                     bdf_end := 1 },
                          dev := some 20, ops := some 222 })],
        pci_endpoints := [{ devid := { type := VIRT_IOMMU_DEV_TYPE_PCI,
                                       segment := 1, bdf_start := 0,
                                       bdf_end := 15 },
                            endpoint_id := 0, viommu := 1 }],
        mmio_endpoints := [] }
      { id := 20, kind := .pciDev 1 1, fwnode := 0, fwspec := none } =
      .noMatch := by
  exact virt_iommu_setup_self_exclusion _
    { id := 20, kind := .pciDev 1 1, fwnode := 0, fwspec := none }
    1
    { devid := { type := VIRT_IOMMU_DEV_TYPE_PCI, segment := 1,
                 bdf_start := 0, bdf_end := 15 },
      endpoint_id := 0, viommu := 1 }
    { devid := { type := VIRT_IOMMU_DEV_TYPE_PCI, segment := 1,
                 bdf_start := 1, bdf_end := 1 },
      dev := some 20, ops := some 222 }
    (Or.inl rfl) (by decide) (by decide) (by decide)

/- ### C7: defer and late ops attachment -/

/-- `find?` by key on a list split around the first occurrence of the
key. -/
theorem find?_key_append {α : Type} (pre post : List (Nat × α)) (vid : Nat)
    (vs : α) (hpre : ∀ p ∈ pre, p.1 ≠ vid) :
    ((pre ++ (vid, vs) :: post).find? fun p => p.1 = vid) = some (vid, vs) := by
  induction pre with
  | nil => exact List.find?_cons_of_pos _ (by simp)
  | cons hd tl ih =>
    rw [List.cons_append, List.find?_cons_of_neg]
    · exact ih fun p hp => hpre p (List.mem_cons_of_mem hd hp)
    · simpa using hpre hd (List.mem_cons_self hd tl)

/-- `set_iommu_ops_walk` walks past entries that neither match the
device nor are bound to it, and rewrites exactly the first entry that
does: it binds `dev` (when reached via selector match) and installs
`ops` and `fwnode` there, leaving the tail untouched. -/
theorem set_iommu_ops_walk_target (dev : device) (ops : Option Nat)
    (pre post : List (Nat × virt_iommu_spec)) (vid : Nat)
    (vs : virt_iommu_spec)
    (hpre : ∀ p ∈ pre,
      ¬(p.2.dev = none ∧ viommu_device_match dev p.2.devid = true) ∧
      p.2.dev ≠ some dev.id)
    (htr : (vs.dev = none ∧ viommu_device_match dev vs.devid = true) ∨
      vs.dev = some dev.id) :
    set_iommu_ops_walk dev ops (pre ++ (vid, vs) :: post) =
      pre ++ (vid, { vs with
                     dev := some dev.id,
                     ops := ops,
                     fwnode := if ops.isSome then some dev.fwnode
                               else none }) :: post := by
  induction pre with
  | nil =>
    rcases htr with ⟨h1, h2⟩ | h1
    · simp [set_iommu_ops_walk, h1, h2]
    · simp [set_iommu_ops_walk, h1]
  | cons hd tl ih =>
    obtain ⟨hd1, hd2⟩ := hpre hd (List.mem_cons_self hd tl)
    rcases hd with ⟨hvid, hvs⟩
    rw [List.cons_append, List.cons_append, set_iommu_ops_walk]
    rw [if_neg hd1]
    rw [if_neg hd2]
    exact congrArg _ (ih fun p hp => hpre p (List.mem_cons_of_mem _ hp))

/-- C7: a device matched by an endpoint whose IOMMU has no ops yet
resolves to the defer result; after `virt_set_iommu_ops` installs
non-null ops for that IOMMU's transport device, re-resolving the same
device succeeds with the same computed endpoint id. -/
theorem virt_iommu_setup_defer_then_found
    (st : RegistryState) (dev transport : device) (e : Nat)
    (ep : virt_iommu_endpoint_spec) (vs : virt_iommu_spec) (ops : Nat)
    (pre post : List (Nat × virt_iommu_spec))
    (hfw : dev.fwspec = none ∨ dev.fwspec = some none)
    (hfind : (match dev.kind with
              | .pciDev _ _ => viommu_find_endpoint dev st.pci_endpoints
              | .platformDev _ => viommu_find_endpoint dev st.mmio_endpoints
              | .otherDev => none) = some (e, ep))
    (hsplit : st.viommus = pre ++ (ep.viommu, vs) :: post)
    (hpreid : ∀ p ∈ pre, p.1 ≠ ep.viommu)
    (hops0 : vs.ops = none)
    (hsm : viommu_device_match dev vs.devid = false)
    (hsd : vs.dev ≠ some dev.id)
    (hpre : ∀ p ∈ pre,
      ¬(p.2.dev = none ∧ viommu_device_match transport p.2.devid = true) ∧
      p.2.dev ≠ some transport.id)
    (htr : (vs.dev = none ∧ viommu_device_match transport vs.devid = true) ∨
      vs.dev = some transport.id)
    (hne : transport.id ≠ dev.id) :
    virt_iommu_setup st dev = .probeDefer ∧
    virt_iommu_setup (virt_set_iommu_ops st transport (some ops)) dev =
      .found ops e := by
  have hlook : lookupViommu st ep.viommu = some vs := by
    rw [lookupViommu, hsplit, find?_key_append pre post _ _ hpreid]
    rfl
  have hcond : ¬(viommu_device_match dev vs.devid = true ∨
      vs.dev = some dev.id) := by
    rintro (h2 | h2)
    · rw [hsm] at h2
      exact Bool.false_ne_true h2
    · exact hsd h2
  constructor
  · unfold virt_iommu_setup
    rcases hfw with h | h <;> rw [h] <;> simp only [hfind, hlook] <;>
      rw [if_neg hcond] <;> rw [hops0]
  · have hwalk : (virt_set_iommu_ops st transport (some ops)).viommus =
        pre ++ (ep.viommu, { vs with
                             dev := some transport.id,
                             ops := some ops,
                             fwnode := some transport.fwnode }) :: post := by
      have h := set_iommu_ops_walk_target transport (some ops) pre post
        ep.viommu vs hpre htr
      rw [virt_set_iommu_ops]
      simp only [hsplit]
      simpa using h
    have hlook' : lookupViommu (virt_set_iommu_ops st transport (some ops))
        ep.viommu = some { vs with
                           dev := some transport.id,
                           ops := some ops,
                           fwnode := some transport.fwnode } := by
      rw [lookupViommu, hwalk, find?_key_append pre post _ _ hpreid]
      rfl
    have hpc : (virt_set_iommu_ops st transport (some ops)).pci_endpoints =
        st.pci_endpoints := rfl
    have hmm : (virt_set_iommu_ops st transport (some ops)).mmio_endpoints =
        st.mmio_endpoints := rfl
    unfold virt_iommu_setup
    rcases hfw with h | h <;> rw [h] <;>
      simp [hpc, hmm, hfind, hlook', hsm, hne]

theorem virt_iommu_setup_defer_then_found_witness :
    virt_iommu_setup
      { viommus := [(0, { devid := { type := VIRT_IOMMU_DEV_TYPE_PCI,
                                     segment := 0, bdf_start := 40,
                                     bdf_end := 40 } })],
        pci_endpoints := [{ devid := { type := VIRT_IOMMU_DEV_TYPE_PCI,
                                       segment := 0, bdf_start := 16,
                                       bdf_end := 31 },
                            endpoint_id := 100, viommu := 0 }],
        mmio_endpoints := [] }
      { id := 5, kind := .pciDev 0 21, fwnode := 0, fwspec := none } =
      .probeDefer ∧
    virt_iommu_setup
      (virt_set_iommu_ops
        { viommus := [(0, { devid := { type := VIRT_IOMMU_DEV_TYPE_PCI,
                                       segment := 0, bdf_start := 40,
                                       bdf_end := 40 } })],
          pci_endpoints := [{ devid := { type := VIRT_IOMMU_DEV_TYPE_PCI,
                                         segment := 0, bdf_start := 16,
                                         bdf_end := 31 },
                              endpoint_id := 100, viommu := 0 }],
          mmio_endpoints := [] }
        { id := 9, kind := .pciDev 0 40, fwnode := 77, fwspec := none }
        (some 3))
      { id := 5, kind := .pciDev 0 21, fwnode := 0, fwspec := none } =
      .found 3 105 := by
  exact virt_iommu_setup_defer_then_found
    { viommus := [(0, { devid := { type := VIRT_IOMMU_DEV_TYPE_PCI,
                                   segment := 0, bdf_start := 40,
                                   bdf_end := 40 } })],
      pci_endpoints := [{ devid := { type := VIRT_IOMMU_DEV_TYPE_PCI,
                                     segment := 0, bdf_start := 16,
                                     bdf_end := 31 },
                          endpoint_id := 100, viommu := 0 }],
      mmio_endpoints := [] }
    { id := 5, kind := .pciDev 0 21, fwnode := 0, fwspec := none }
    { id := 9, kind := .pciDev 0 40, fwnode := 77, fwspec := none }
    105
    { devid := { type := VIRT_IOMMU_DEV_TYPE_PCI, segment := 0,
                 bdf_start := 16, bdf_end := 31 },
      endpoint_id := 100, viommu := 0 }
    { devid := { type := VIRT_IOMMU_DEV_TYPE_PCI, segment := 0,
                 bdf_start := 40, bdf_end := 40 } }
    3 [] []
    (Or.inl rfl) (by decide) rfl (by simp) rfl (by decide) (by decide)
    (by simp) (Or.inl ⟨rfl, by decide⟩) (by decide)

/- ### C5: firmware-table IOMMU deduplication -/

/-- The three possible outcomes of `viot_get_iommu`: a hit in the
visited list (state untouched), a failure (state untouched), or the
creation of exactly one fresh spec, recorded in the visited list and
published to the registry once. -/
theorem viot_get_iommu_shape (viot : acpi_table_viot) (off : Nat)
    (st : ViotState) :
    (∃ p, st.iommus.find? (fun q => q.1 = off) = some p ∧
       viot_get_iommu viot off st = (some p.2, st)) ∨
    viot_get_iommu viot off st = (none, st) ∨
    (st.iommus.find? (fun q => q.1 = off) = none ∧
     ∃ sp, viot_get_iommu viot off st =
       (some st.next_id,
        { iommus := (off, st.next_id) :: st.iommus,
          reg := virt_iommu_add_iommu_spec (st.next_id, sp) st.reg,
          next_id := st.next_id + 1 })) := by
  unfold viot_get_iommu
  cases hf : st.iommus.find? fun q => q.1 = off with
  | some p => exact Or.inl ⟨p, rfl, rfl⟩
  | none =>
    simp only []
    split_ifs with h1 h2 h3 h4 h5
    · exact Or.inr (Or.inl rfl)
    · exact Or.inr (Or.inl rfl)
    · exact Or.inr (Or.inr ⟨by trivial, _, rfl⟩)
    · exact Or.inr (Or.inl rfl)
    · exact Or.inr (Or.inr ⟨by trivial, _, rfl⟩)
    · exact Or.inr (Or.inl rfl)

/-- C5: `viot_get_iommu` is deduplicated by offset: a second lookup of
the same offset returns the identical spec (same allocation identity)
and leaves the state untouched, and a single lookup either leaves the
state untouched or creates exactly one spec — recorded under the fresh
id and published to the registry's IOMMU list exactly once — and only
when the offset was not yet in the visited list. -/
theorem viot_get_iommu_dedup (viot : acpi_table_viot) (off : Nat)
    (st : ViotState) :
    viot_get_iommu viot off ((viot_get_iommu viot off st).2) =
      viot_get_iommu viot off st ∧
    ((viot_get_iommu viot off st).2 = st ∨
     (st.iommus.find? (fun q => q.1 = off) = none ∧
      (viot_get_iommu viot off st).1 = some st.next_id ∧
      (viot_get_iommu viot off st).2.iommus = (off, st.next_id) :: st.iommus ∧
      (∃ sp, (viot_get_iommu viot off st).2.reg.viommus =
         (st.next_id, sp) :: st.reg.viommus) ∧
      (viot_get_iommu viot off st).2.reg.pci_endpoints =
        st.reg.pci_endpoints ∧
      (viot_get_iommu viot off st).2.reg.mmio_endpoints =
        st.reg.mmio_endpoints ∧
      (viot_get_iommu viot off st).2.next_id = st.next_id + 1)) := by
  rcases viot_get_iommu_shape viot off st with ⟨p, hf, h⟩ | h | ⟨hf, sp, h⟩
  · rw [h]
    exact ⟨h, Or.inl rfl⟩
  · rw [h]
    exact ⟨h, Or.inl rfl⟩
  · rw [h]
    constructor
    · unfold viot_get_iommu
      rw [List.find?_cons_of_pos _ (by simp)]
    · exact Or.inr ⟨hf, rfl, rfl, ⟨sp, rfl⟩, rfl, rfl, rfl⟩

/- ### C6: what viot_check_bounds actually checks -/

/-- Table for probing `viot_check_bounds`: total length 56, node array
at offset 48, with a node at offset 52 whose declared length (100)
extends far past the end of the table. -/
def oversizedTailViot : acpi_table_viot :=
  { header_length := 56, node_offset := 48, node_count := 1,
    nodes := fun o =>
      if o = 52 then { type := ACPI_VIOT_NODE_PCI_RANGE, length := 100 }
      else {} }

/-- C6 counterexample: the node at offset 52 starts inside
`[node_offset, table_length)` but its declared bytes run past the end of
the table, yet `viot_check_bounds` accepts it (returns 0) instead of
failing with Overflow: only the record's start offset is checked, not
its extent. -/
theorem viot_check_bounds_extent_cx :
    viot_check_bounds oversizedTailViot 52 = 0 ∧
    oversizedTailViot.header_length <
      52 + (oversizedTailViot.nodes 52).length := by
  exact ⟨by decide, by decide⟩

/-- C6 amended: a record is rejected with `-EOVERFLOW` exactly when its
start offset lies outside `[node_offset, table_length)` (the declared
length is never compared against the table end), and with `-EINVAL`
(empty record) when its declared length is smaller than the sub-header;
either rejection makes `viot_parse_node` fail (as `-EINVAL`) and aborts
the walk at that record. -/
theorem viot_check_bounds_start_only (viot : acpi_table_viot) (off n : Nat)
    (st : ViotState) :
    (off < viot.node_offset ∨ viot.header_length ≤ off →
       viot_check_bounds viot off = -EOVERFLOW ∧
       viot_parse_node viot off st = (-EINVAL, st) ∧
       viot_walk viot (n + 1) off st = st) ∧
    (viot.node_offset ≤ off → off < viot.header_length →
       (viot.nodes off).length < sizeof_acpi_viot_node →
       viot_check_bounds viot off = -EINVAL ∧
       viot_parse_node viot off st = (-EINVAL, st) ∧
       viot_walk viot (n + 1) off st = st) ∧
    (viot.node_offset ≤ off → off < viot.header_length →
       sizeof_acpi_viot_node ≤ (viot.nodes off).length →
       viot_check_bounds viot off = 0) := by
  have cb2 : viot.node_offset ≤ off → off < viot.header_length →
      (viot.nodes off).length < sizeof_acpi_viot_node →
      viot_check_bounds viot off = -EINVAL := fun h1 h2 h3 => by
    unfold viot_check_bounds
    rw [if_neg (by omega), if_pos h3]
  have cb3 : viot.node_offset ≤ off → off < viot.header_length →
      sizeof_acpi_viot_node ≤ (viot.nodes off).length →
      viot_check_bounds viot off = 0 := fun h1 h2 h3 => by
    unfold viot_check_bounds
    rw [if_neg (by omega), if_neg (by omega)]
  have pn : viot_check_bounds viot off ≠ 0 →
      viot_parse_node viot off st = (-EINVAL, st) := fun h => by
    unfold viot_parse_node
    rw [if_pos h]
  have wk : viot_parse_node viot off st = (-EINVAL, st) →
      viot_walk viot (n + 1) off st = st := fun h => by
    rw [viot_walk, h]
    simp [EINVAL]
  refine ⟨fun h => ?_, fun h1 h2 h3 => ?_, cb3⟩
  · have c : viot_check_bounds viot off = -EOVERFLOW := by
      unfold viot_check_bounds
      rw [if_pos h]
    have p := pn (by rw [c]; decide)
    exact ⟨c, p, wk p⟩
  · have c := cb2 h1 h2 h3
    have p := pn (by rw [c]; decide)
    exact ⟨c, p, wk p⟩

theorem viot_check_bounds_start_only_witness :
    (viot_check_bounds oversizedTailViot 100 = -EOVERFLOW ∧
     viot_parse_node oversizedTailViot 100 {} = (-EINVAL, {}) ∧
     viot_walk oversizedTailViot 1 100 {} = {}) ∧
    (viot_check_bounds oversizedTailViot 48 = -EINVAL ∧
     viot_parse_node oversizedTailViot 48 {} = (-EINVAL, {}) ∧
     viot_walk oversizedTailViot 1 48 {} = {}) ∧
    viot_check_bounds oversizedTailViot 52 = 0 :=
  ⟨(viot_check_bounds_start_only oversizedTailViot 100 0 {}).1
     (by decide),
   (viot_check_bounds_start_only oversizedTailViot 48 0 {}).2.1
     (by decide) (by decide) (by decide),
   (viot_check_bounds_start_only oversizedTailViot 52 0 {}).2.2
     (by decide) (by decide) (by decide)⟩

/- ### C8: firmware-table walk policy -/

/-- Registry `r2` extends `r1`: each of the three lists of `r1` is a
suffix of the corresponding list of `r2` (all additions prepend). -/
def regExtends (r1 r2 : RegistryState) : Prop :=
  r1.viommus.IsSuffix r2.viommus ∧
  r1.pci_endpoints.IsSuffix r2.pci_endpoints ∧
  r1.mmio_endpoints.IsSuffix r2.mmio_endpoints

theorem regExtends_refl (r : RegistryState) : regExtends r r :=
  ⟨List.suffix_refl _, List.suffix_refl _, List.suffix_refl _⟩

theorem regExtends_trans {r1 r2 r3 : RegistryState}
    (h1 : regExtends r1 r2) (h2 : regExtends r2 r3) : regExtends r1 r3 :=
  ⟨h1.1.trans h2.1, h1.2.1.trans h2.2.1, h1.2.2.trans h2.2.2⟩

theorem regExtends_add_iommu (sp : Nat × virt_iommu_spec)
    (r : RegistryState) : regExtends r (virt_iommu_add_iommu_spec sp r) :=
  ⟨List.suffix_cons sp _, List.suffix_refl _, List.suffix_refl _⟩

theorem regExtends_add_endpoint (ep : virt_iommu_endpoint_spec)
    (r : RegistryState) : regExtends r (virt_iommu_add_endpoint_spec ep r) := by
  unfold virt_iommu_add_endpoint_spec
  split_ifs
  · exact ⟨List.suffix_refl _, List.suffix_refl _, List.suffix_cons ep _⟩
  · exact ⟨List.suffix_refl _, List.suffix_cons ep _, List.suffix_refl _⟩

theorem viot_get_iommu_extends (viot : acpi_table_viot) (off : Nat)
    (st : ViotState) :
    regExtends st.reg (viot_get_iommu viot off st).2.reg := by
  rcases viot_get_iommu_shape viot off st with ⟨p, _, h⟩ | h | ⟨_, sp, h⟩ <;>
    rw [h]
  · exact regExtends_refl _
  · exact regExtends_refl _
  · exact regExtends_add_iommu _ _

theorem viot_parse_node_extends (viot : acpi_table_viot) (off : Nat)
    (st : ViotState) :
    regExtends st.reg (viot_parse_node viot off st).2.reg := by
  unfold viot_parse_node
  by_cases h1 : viot_check_bounds viot off ≠ 0
  · rw [if_pos h1]
    exact regExtends_refl _
  · rw [if_neg h1]
    by_cases h2 : (viot.nodes off).type = ACPI_VIOT_NODE_PCI_RANGE
    · rw [if_pos h2]
      by_cases h3 : (viot.nodes off).length < sizeof_acpi_viot_pci_range
      · rw [if_pos h3]
        exact regExtends_refl _
      · rw [if_neg h3]
        have he := viot_get_iommu_extends viot
          (viot.nodes off).pr_output_node st
        rcases hg : viot_get_iommu viot (viot.nodes off).pr_output_node st
          with ⟨vopt, st1⟩
        rw [hg] at he
        cases vopt with
        | none => exact he
        | some vid => exact regExtends_trans he (regExtends_add_endpoint _ _)
    · rw [if_neg h2]
      by_cases h4 : (viot.nodes off).type = ACPI_VIOT_NODE_MMIO
      · rw [if_pos h4]
        by_cases h5 : (viot.nodes off).length < sizeof_acpi_viot_mmio
        · rw [if_pos h5]
          exact regExtends_refl _
        · rw [if_neg h5]
          have he := viot_get_iommu_extends viot
            (viot.nodes off).mm_output_node st
          rcases hg : viot_get_iommu viot (viot.nodes off).mm_output_node st
            with ⟨vopt, st1⟩
          rw [hg] at he
          cases vopt with
          | none => exact he
          | some vid =>
            exact regExtends_trans he (regExtends_add_endpoint _ _)
      · rw [if_neg h4]
        exact regExtends_refl _

theorem viot_walk_extends (viot : acpi_table_viot) :
    ∀ (n off : Nat) (st : ViotState),
      regExtends st.reg (viot_walk viot n off st).reg
  | 0, _, _ => regExtends_refl _
  | n + 1, off, st => by
    rw [viot_walk]
    by_cases hr : (viot_parse_node viot off st).1 ≠ 0
    · rw [if_pos hr]
      exact viot_parse_node_extends viot off st
    · rw [if_neg hr]
      exact regExtends_trans (viot_parse_node_extends viot off st)
        (viot_walk_extends viot n (off + (viot.nodes off).length) _)

/-- C8: a record with an unrecognized type that passes the bounds check
is skipped (`viot_parse_node` returns 0 leaving the state untouched)
and the walk continues at the next record; the first record whose parse
fails aborts the rest of the walk; and the walk only ever extends the
registry, so everything published before an abort remains published. -/
theorem viot_walk_skip_abort_keep :
    (∀ (viot : acpi_table_viot) (off n : Nat) (st : ViotState),
       viot_check_bounds viot off = 0 →
       (viot.nodes off).type ≠ ACPI_VIOT_NODE_PCI_RANGE →
       (viot.nodes off).type ≠ ACPI_VIOT_NODE_MMIO →
       viot_parse_node viot off st = (0, st) ∧
       viot_walk viot (n + 1) off st =
         viot_walk viot n (off + (viot.nodes off).length) st) ∧
    (∀ (viot : acpi_table_viot) (off n : Nat) (st : ViotState)
       (ret : Int) (st' : ViotState),
       viot_parse_node viot off st = (ret, st') → ret ≠ 0 →
       viot_walk viot (n + 1) off st = st') ∧
    (∀ (viot : acpi_table_viot) (n off : Nat) (st : ViotState),
       regExtends st.reg (viot_walk viot n off st).reg) := by
  refine ⟨?_, ?_, fun viot n off st => viot_walk_extends viot n off st⟩
  · intro viot off n st hc ht1 ht2
    have hp : viot_parse_node viot off st = (0, st) := by
      unfold viot_parse_node
      rw [if_neg (by rw [hc]; exact fun h => h rfl), if_neg ht1, if_neg ht2]
    refine ⟨hp, ?_⟩
    rw [viot_walk, hp]
    simp
  · intro viot off n st ret st' hp hr
    rw [viot_walk, hp]
    simp [hr]

/-- Table for exercising the walk: an unrecognized node (type 9) at
offset 48, followed at offset 54 by a node whose declared length 0 fails
validation. -/
def c8Viot : acpi_table_viot :=
  { header_length := 64, node_offset := 48, node_count := 3,
    nodes := fun o =>
      if o = 48 then { type := 9, length := 6 }
      else {} }

theorem viot_walk_skip_abort_keep_witness :
    (viot_parse_node c8Viot 48 {} = (0, {}) ∧
     viot_walk c8Viot 3 48 {} = viot_walk c8Viot 2 54 {}) ∧
    viot_walk c8Viot 1 54 {} = {} ∧
    regExtends (viot_walk c8Viot 3 48 {}).reg
      (viot_walk c8Viot 3 48 {}).reg :=
  ⟨viot_walk_skip_abort_keep.1 c8Viot 48 2 {} (by decide) (by decide)
     (by decide),
   viot_walk_skip_abort_keep.2.1 c8Viot 54 0 {} (-EINVAL) {} (by decide)
     (by decide),
   viot_walk_skip_abort_keep.2.2 c8Viot 0 48 (viot_walk c8Viot 3 48 {})⟩

/- ### C9: termination of the firmware-table walk -/

theorem viot_walk_steps_le (viot : acpi_table_viot) :
    ∀ (n off : Nat) (st : ViotState), viot_walk_steps viot n off st ≤ n
  | 0, _, _ => Nat.le_refl 0
  | n + 1, off, st => by
    rw [viot_walk_steps]
    by_cases hr : (viot_parse_node viot off st).1 ≠ 0
    · rw [if_pos hr]
      omega
    · rw [if_neg hr]
      have h := viot_walk_steps_le viot n (off + (viot.nodes off).length)
        (viot_parse_node viot off st).2
      omega

/-- C9: every record the walk continues past has declared length at
least the sub-header size (zero-length or under-sized records are
rejected), so the cursor strictly increases at each continuing
iteration; the walk performs at most its fuel's worth of iterations, in
particular at most `node_count` for `viot_parse_nodes`. -/
theorem viot_walk_termination :
    (∀ (viot : acpi_table_viot) (off : Nat) (st : ViotState),
       (viot_parse_node viot off st).1 = 0 →
       sizeof_acpi_viot_node ≤ (viot.nodes off).length ∧
       off < off + (viot.nodes off).length) ∧
    (∀ (viot : acpi_table_viot) (n off : Nat) (st : ViotState),
       viot_walk_steps viot n off st ≤ n) ∧
    (∀ (viot : acpi_table_viot) (st : ViotState),
       viot_walk_steps viot viot.node_count viot.node_offset st ≤
         viot.node_count) := by
  refine ⟨?_, fun viot n off st => viot_walk_steps_le viot n off st,
    fun viot st => viot_walk_steps_le viot _ _ st⟩
  intro viot off st h0
  by_cases hc : viot_check_bounds viot off = 0
  · have hlen : sizeof_acpi_viot_node ≤ (viot.nodes off).length := by
      by_contra hlt
      have : viot_check_bounds viot off = -EINVAL := by
        unfold viot_check_bounds at hc ⊢
        split_ifs at hc ⊢ with h1 h2
        · exact absurd hc (by decide)
        · rfl
        · omega
      rw [this] at hc
      exact absurd hc (by decide)
    have : 0 < (viot.nodes off).length := by
      have : (0 : Nat) < sizeof_acpi_viot_node := by decide
      omega
    exact ⟨hlen, by omega⟩
  · have hp : viot_parse_node viot off st = (-EINVAL, st) := by
      unfold viot_parse_node
      rw [if_pos hc]
    rw [hp] at h0
    simp [EINVAL] at h0

theorem viot_walk_termination_witness :
    (sizeof_acpi_viot_node ≤ (c8Viot.nodes 48).length ∧
     48 < 48 + (c8Viot.nodes 48).length) ∧
    viot_walk_steps c8Viot 3 48 {} ≤ 3 ∧
    viot_walk_steps c8Viot c8Viot.node_count c8Viot.node_offset {} ≤
      c8Viot.node_count :=
  ⟨viot_walk_termination.1 c8Viot 48 {} (by decide),
   viot_walk_termination.2.1 c8Viot 3 48 {},
   viot_walk_termination.2.2 c8Viot {}⟩

/- ### C1: unknown item types in the config-region parser -/

/-- Config region for probing unknown-type handling: topology descriptor
`{offset=16, num_items=2}`; item 0 at offset 16 is a well-formed
PCI_RANGE record (declared length 16), item 1 at offset 32 has the
unrecognized type 9 and a well-bounded declared length 4. -/
def unknownItemCfg : virtio_iommu_config :=
  { topo_offset := 16, topo_num_items := 2,
    items := fun o =>
      if o = 16 then
        { type := VIRTIO_IOMMU_TOPO_PCI_RANGE, length := 16,
          pci_segment := 0, pci_bdf_start := 16, pci_bdf_end := 31,
          pci_endpoint_start := 100 }
      else if o = 32 then { type := 9, length := 4 }
      else {} }

/-- C1: evaluation of the parser on a topology whose second item has an
unrecognized (but well-bounded) type: `viommu_parse_node` returns
`ERR_PTR(-EINVAL)` — its default case never returns the NULL that the
caller's skip branch tests for — so `viommu_parse_topology` fails with
`-EINVAL` and discards the valid first item instead of skipping the
unknown one and continuing. -/
theorem viommu_parse_topology_unknown_type_aborts :
    viommu_parse_node unknownItemCfg 32 4 = .err (-EINVAL) ∧
    viommu_parse_topology 7 unknownItemCfg 64 {} 0 = (-EINVAL, {}, 0) :=
  ⟨by decide, by decide⟩

/- ### C3: all-or-nothing publication in the config-region parser -/

/-- C3: the config-region parser is atomic per transport: on any nonzero
result the registry and the allocation counter are exactly as before
(nothing published, the buffered endpoint specs and the IOMMU spec are
discarded); any item whose sub-header or declared length overruns
`max_len` makes the walk fail with `-EOVERFLOW`; and on success with a
nonempty topology the IOMMU spec is published exactly once on top of
the accumulated endpoint specs. -/
theorem viommu_parse_topology_atomic :
    (∀ (dev : Nat) (cfg : virtio_iommu_config) (max_len : Nat)
       (st : RegistryState) (nid : Nat),
       (viommu_parse_topology dev cfg max_len st nid).1 ≠ 0 →
       (viommu_parse_topology dev cfg max_len st nid).2.1 = st ∧
       (viommu_parse_topology dev cfg max_len st nid).2.2 = nid) ∧
    (∀ (cfg : virtio_iommu_config) (max_len vid n off : Nat)
       (acc : List virt_iommu_endpoint_spec),
       max_len < off + sizeof_viommu_topo_header ∨
         max_len < off + (cfg.items off).length →
       (viommu_topo_walk cfg max_len vid (n + 1) off acc).1 = -EOVERFLOW) ∧
    (∀ (dev : Nat) (cfg : virtio_iommu_config) (max_len : Nat)
       (st : RegistryState) (nid : Nat),
       (viommu_parse_topology dev cfg max_len st nid).1 = 0 →
       ¬(cfg.topo_offset = 0 ∨ cfg.topo_num_items = 0) →
       ∃ eps, (viommu_parse_topology dev cfg max_len st nid).2.1 =
         virt_iommu_add_iommu_spec (nid, { devid := {}, dev := some dev })
           (publish_endpoints eps st) ∧
         (viommu_parse_topology dev cfg max_len st nid).2.2 = nid + 1) := by
  refine ⟨?_, ?_, ?_⟩
  · intro dev cfg max_len st nid h
    unfold viommu_parse_topology at h ⊢
    by_cases h0 : cfg.topo_offset = 0 ∨ cfg.topo_num_items = 0
    · rw [if_pos h0] at h
      exact absurd rfl h
    · rw [if_neg h0] at h ⊢
      by_cases hw : (viommu_topo_walk cfg max_len nid cfg.topo_num_items
          cfg.topo_offset []).1 ≠ 0
      · rw [if_pos hw]
        exact ⟨rfl, rfl⟩
      · rw [if_neg hw] at h
        exact absurd rfl h
  · intro cfg max_len vid n off acc h
    rw [viommu_topo_walk]
    by_cases h1 : max_len < off + sizeof_viommu_topo_header
    · rw [if_pos h1]
    · rcases h with h | h
      · exact absurd h h1
      · rw [if_neg h1, if_pos h]
  · intro dev cfg max_len st nid h h0
    unfold viommu_parse_topology at h ⊢
    rw [if_neg h0] at h ⊢
    by_cases hw : (viommu_topo_walk cfg max_len nid cfg.topo_num_items
        cfg.topo_offset []).1 ≠ 0
    · rw [if_pos hw] at h
      exact absurd h hw
    · rw [if_neg hw]
      exact ⟨(viommu_topo_walk cfg max_len nid cfg.topo_num_items
        cfg.topo_offset []).2, rfl, rfl⟩

/-- Config region realizing the spec's rollback scenario: topology
descriptor `{offset=16, num_items=3}`; items 0 and 1 are well-formed
PCI_RANGE records, item 2 at offset 48 declares length 100, overrunning
`max_len = 64`. -/
def overflowItemCfg : virtio_iommu_config :=
  { topo_offset := 16, topo_num_items := 3,
    items := fun o =>
      if o = 16 ∨ o = 32 then
        { type := VIRTIO_IOMMU_TOPO_PCI_RANGE, length := 16,
          pci_segment := 0, pci_bdf_start := 16, pci_bdf_end := 31,
          pci_endpoint_start := 100 }
      else if o = 48 then
        { type := VIRTIO_IOMMU_TOPO_PCI_RANGE, length := 100 }
      else {} }

/-- Config region with a fully valid two-item topology. -/
def okItemsCfg : virtio_iommu_config :=
  { topo_offset := 16, topo_num_items := 2,
    items := fun o =>
      if o = 16 ∨ o = 32 then
        { type := VIRTIO_IOMMU_TOPO_PCI_RANGE, length := 16,
          pci_segment := 0, pci_bdf_start := 16, pci_bdf_end := 31,
          pci_endpoint_start := 100 }
      else {} }

theorem viommu_parse_topology_atomic_witness :
    ((viommu_parse_topology 7 overflowItemCfg 64 {} 0).2.1 = {} ∧
     (viommu_parse_topology 7 overflowItemCfg 64 {} 0).2.2 = 0) ∧
    (viommu_topo_walk overflowItemCfg 64 0 1 48 []).1 = -EOVERFLOW ∧
    ∃ eps, (viommu_parse_topology 7 okItemsCfg 64 {} 0).2.1 =
      virt_iommu_add_iommu_spec (0, { devid := {}, dev := some 7 })
        (publish_endpoints eps {}) ∧
      (viommu_parse_topology 7 okItemsCfg 64 {} 0).2.2 = 0 + 1 :=
  ⟨viommu_parse_topology_atomic.1 7 overflowItemCfg 64 {} 0 (by decide),
   viommu_parse_topology_atomic.2.1 overflowItemCfg 64 0 0 48 []
     (Or.inr (by decide)),
   viommu_parse_topology_atomic.2.2 7 okItemsCfg 64 {} 0 (by decide)
     (by decide)⟩
